import Mathlib

/-!
Shallow embedding of `src/main.py` (bakedSpaceTime/image-builder): a script that
generates Dockerfile / cloudbuild.yaml / shell-script artifacts for a list of
Ollama model identifiers and optionally submits cloud builds.

File writes are modelled as a list of `FileWrite` records (path, content,
executable bit) in the order the Python program performs them; the external
`gcloud` invocations of `submit_builds` are modelled as a list of events driven
by an oracle giving each invocation's success or failure.
-/

namespace ImageBuilder

/-- One character of Python's `str.replace(old, new)` for a single-character
`old` and `new`: such a replace is exactly a character-wise map. -/
def replace1 (old new c : Char) : Char :=
  if c = old then new else c

/-- Embeds `Python str.replace` for single-character pattern and replacement,
as used in `get_model_id` (`model_name.replace(":", "-").replace(".", "-")`). -/
def replaceChar (old new : Char) (s : String) : String :=
  String.mk (s.data.map (replace1 old new))

/-- One character of the generator expression in `get_model_id`:
`c if c.isalnum() else "-"`.  Python's `str.isalnum` is modelled by
`Char.isAlphanum`; the identifiers this tool is written for are ASCII. -/
def sanitizeChar (c : Char) : Char :=
  if c.isAlphanum then c else '-'

/-- Embeds `get_model_id` from `src/main.py` lines 57-66:
`"".join(c if c.isalnum() else "-" for c in model_name.replace(":", "-").replace(".", "-"))`. -/
def get_model_id (model_name : String) : String :=
  String.mk ((replaceChar '.' '-' (replaceChar ':' '-' model_name)).data.map sanitizeChar)

/-- Embeds `os.path.join(dir, name)` for a relative `name` (every name this
program joins starts with an alphanumeric character or a fixed literal, never
with `/`): the result is `dir + "/" + name`, with no separator inserted when
`dir` is empty or already ends in `/`. -/
def joinPath (dir name : String) : String :=
  if dir = "" then name
  else if dir.data.getLast? = some '/' then dir ++ name
  else dir ++ "/" ++ name

/-- One filesystem write performed by the program: target path, full text
written, and whether the file is subsequently marked executable (`os.chmod
0o755`). -/
structure FileWrite where
  path : String
  content : String
  executable : Bool
deriving DecidableEq

/-- `DOCKERFILE_TEMPLATE` rendered by Jinja2 with `model=model,
additional_models=[]` as `generate_files` does: the `additional_models` block
is skipped (empty list is falsy), leaving the newline that preceded it, and
Jinja2's default `keep_trailing_newline=False` strips the template's final
newline. -/
def dockerfile_render (model : String) : String :=
  "FROM ollama/ollama\nENV HOME /root\nWORKDIR /\nENV OLLAMA_KEEP_ALIVE -1\nRUN ollama serve & sleep 10 && ollama pull "
    ++ model ++ "\n\nENTRYPOINT [\"ollama\",\"serve\"]"

/-- `CLOUDBUILD_TEMPLATE` rendered with `model_id=model_id` (final template
newline stripped, Jinja2 default). -/
def cloudbuild_render (model_id : String) : String :=
  "steps:\n # Build step\n - name: gcr.io/cloud-builders/docker\n   args:\n    - build\n    - \"-t\"\n    - gcr.io/$PROJECT_ID/ollama:"
    ++ model_id
    ++ "\n    - \"-f\"\n    - Dockerfile-"
    ++ model_id
    ++ "\n    - .\n# Push step\n - name: gcr.io/cloud-builders/docker\n   args:\n    - push\n    - gcr.io/$PROJECT_ID/ollama:"
    ++ model_id
    ++ "\n# Image outputs\nimages:\n - gcr.io/$PROJECT_ID/ollama:"
    ++ model_id
    ++ "\n# Build options\noptions:\n  machineType: E2_HIGHCPU_8\n  diskSizeGb: 200  # Increased disk space otherwise the model built on cloud build exceeds default space"

/-- `BUILD_SCRIPT_TEMPLATE` rendered with `build_dir=build_dir,
model_id=model_id` (final template newline stripped, Jinja2 default). -/
def build_script_render (build_dir model_id : String) : String :=
  "#!/bin/bash\nset -x\npushd " ++ build_dir
    ++ "\ngcloud builds submit --config " ++ model_id ++ "-cloudbuild.yaml\npopd"

/-- The writes the body of the `for model in models` loop of `generate_files`
performs for one model: `Dockerfile-<id>`, `<id>-cloudbuild.yaml`, and — when
`generate_build_script` — the executable `build-<id>.sh`. -/
def modelWrites (build_dir : String) (generate_build_script : Bool) (model : String) : List FileWrite :=
  let model_id := get_model_id model
  ⟨joinPath build_dir ("Dockerfile-" ++ model_id), dockerfile_render model, false⟩ ::
  ⟨joinPath build_dir (model_id ++ "-cloudbuild.yaml"), cloudbuild_render model_id, false⟩ ::
  (if generate_build_script then
    [⟨joinPath build_dir ("build-" ++ model_id ++ ".sh"), build_script_render build_dir model_id, true⟩]
   else [])

/-- The `build_scripts` list accumulated by `generate_files` when
`generate_build_script` is true: one `build-<id>.sh` path per model, in model
order. -/
def build_script_paths (models : List String) (build_dir : String) : List String :=
  models.map fun m => joinPath build_dir ("build-" ++ get_model_id m ++ ".sh")

/-- Content of the master script `build-all.sh`: the fixed header followed by
one line per per-model build script, in accumulation order. -/
def build_all_content (build_scripts : List String) : String :=
  "#!/bin/bash\nset -e\n\n" ++ String.join (build_scripts.map fun s => s ++ "\n")

/-- Embeds `generate_files` (`src/main.py` lines 69-123) as the ordered list
of file writes it performs: for each model its `modelWrites`, then — when
`generate_build_script and build_scripts` (the accumulated list is nonempty
exactly when the flag is set and `models` is nonempty) — the executable
`build-all.sh`. -/
def generate_files (models : List String) (build_dir : String) (generate_build_script : Bool) : List FileWrite :=
  (models.flatMap (modelWrites build_dir generate_build_script)) ++
    (if generate_build_script && !models.isEmpty then
      [⟨joinPath build_dir "build-all.sh",
        build_all_content (build_script_paths models build_dir), true⟩]
     else [])

/-- The final content observed at `path` after all `writes` are performed in
order: each write truncates and rewrites the whole file (`open(..., "w")`), so
the last write to a path wins. -/
def finalContent (writes : List FileWrite) (path : String) : Option String :=
  ((writes.filter fun w => w.path = path).getLast?).map FileWrite.content

/-- Whether `s` ends with the string `suff` (filename-extension check used to
state the spec's "no `.sh` files" property). -/
def endsWithStr (s suff : String) : Bool :=
  decide (suff.data <:+ s.data)

/-- One event of `submit_builds`: the `subprocess.run` invocation with its
argument vector, the success print, or the caught-and-logged
`CalledProcessError` (always tagged with the model name it is printed with). -/
inductive SubmitEvent where
  | attempt (model : String) (args : List String) : SubmitEvent
  | ok (model : String) : SubmitEvent
  | errorLogged (model : String) : SubmitEvent
deriving DecidableEq

/-- The argument vector `submit_builds` passes to `subprocess.run` for one
model (`src/main.py` lines 130-139). -/
def submit_args (build_dir model : String) : List String :=
  ["gcloud", "builds", "submit", "--config",
   joinPath build_dir (get_model_id model ++ "-cloudbuild.yaml"), build_dir]

/-- Embeds `submit_builds` (`src/main.py` lines 126-142) as the list of events
it produces. `fails i` is the oracle for the `i`-th `subprocess.run`
invocation: `true` means non-zero exit, which with `check=True` raises
`CalledProcessError`; the `except` clause catches it, logs it with the model
name, and the `for` loop continues with the next model.  `i` is the index of
the next invocation (`0` at entry from `main`). -/
def submit_builds (fails : Nat → Bool) (build_dir : String) : List String → Nat → List SubmitEvent
  | [], _ => []
  | model :: rest, i =>
      SubmitEvent.attempt model (submit_args build_dir model)
        :: (if fails i then SubmitEvent.errorLogged model else SubmitEvent.ok model)
        :: submit_builds fails build_dir rest (i + 1)

/-- The model name of an `attempt` event, `none` for prints. -/
def attemptedModel : SubmitEvent → Option String
  | .attempt m _ => some m
  | _ => none

/-- The model name of a logged `CalledProcessError`, `none` otherwise. -/
def loggedFailure : SubmitEvent → Option String
  | .errorLogged m => some m
  | _ => none

/-- A filesystem operation `generate_files` performs: the initial
`os.makedirs(build_dir, exist_ok=True)` or one file write. -/
inductive FsOp where
  | mkdir (path : String) : FsOp
  | write (w : FileWrite) : FsOp
deriving DecidableEq

/-- The ordered filesystem operations of one `generate_files` call: the
directory creation, then every file write. -/
def generate_files_ops (models : List String) (build_dir : String) (generate_build_script : Bool) : List FsOp :=
  FsOp.mkdir build_dir :: (generate_files models build_dir generate_build_script).map FsOp.write

/-- Runs filesystem operations in order under an oracle `ok` saying which
operations succeed.  `generate_files` wraps none of them in `try`, so the
first failing operation raises: the result is the list of operations actually
performed (everything strictly before the failure — no cleanup removes them)
together with the raised error (`some` failing op), or `none` when all
succeed. -/
def runOps (ok : FsOp → Bool) : List FsOp → List FsOp × Option FsOp
  | [] => ([], none)
  | op :: rest =>
      if ok op then
        let r := runOps ok rest
        (op :: r.1, r.2)
      else ([], some op)

/-- Python `str.split(sep)` for a one-character separator: splits on every
occurrence, keeping empty pieces (`"".split(",") == [""]`). -/
def splitOnChar (sep : Char) : List Char → List (List Char)
  | [] => [[]]
  | c :: rest =>
      match splitOnChar sep rest with
      | [] => [[c]]
      | cur :: others =>
          if c = sep then [] :: cur :: others
          else (c :: cur) :: others

/-- Removes leading whitespace characters. -/
def dropLeadingWs : List Char → List Char
  | [] => []
  | c :: rest => if c.isWhitespace then dropLeadingWs rest else c :: rest

/-- Python `str.strip()`: removes leading and trailing whitespace.
(`Char.isWhitespace` covers the ASCII whitespace relevant here.) -/
def py_strip (s : String) : String :=
  String.mk ((dropLeadingWs (dropLeadingWs s.data).reverse).reverse)

/-- Embeds the parsing step of `main` (`src/main.py` line 190):
`[model.strip() for model in models_str.split(",")]`. -/
def parse_models (models_str : String) : List String :=
  (splitOnChar ',' models_str.data).map fun l => py_strip (String.mk l)

/-- The file writes `main` performs for a given `--models` string: parse, then
`generate_files(models, build_dir, not no_build_scripts)`. -/
def main_generate (models_str build_dir : String) (no_build_scripts : Bool) : List FileWrite :=
  generate_files (parse_models models_str) build_dir (!no_build_scripts)

/-- Embeds the effectful part of `main` under a filesystem oracle `ok` and a
submission oracle `fails`: runs `generate_files`; a filesystem error is caught
nowhere in the program, so it propagates as the overall result and
`submit_builds` never runs; otherwise `submit_builds` runs when `submit` is
set.  Result: ((filesystem ops performed, submit events), propagated error). -/
def main_run (ok : FsOp → Bool) (fails : Nat → Bool) (models_str build_dir : String)
    (submit no_build_scripts : Bool) : (List FsOp × List SubmitEvent) × Option FsOp :=
  let models := parse_models models_str
  let r := runOps ok (generate_files_ops models build_dir (!no_build_scripts))
  match r.2 with
  | some e => ((r.1, []), some e)
  | none => ((r.1, if submit then submit_builds fails build_dir models 0 else []), none)

/-! ## Helper lemmas about the sanitizer -/

/-- The per-character action of `get_model_id`: the two single-character
replaces followed by the alphanumeric filter. -/
def modelIdChar (c : Char) : Char :=
  sanitizeChar (replace1 '.' '-' (replace1 ':' '-' c))

lemma sanitizeChar_alnum_or_hyphen (c : Char) :
    (sanitizeChar c).isAlphanum = true ∨ sanitizeChar c = '-' := by
  unfold sanitizeChar
  split
  · left; assumption
  · right; rfl

lemma data_mk (l : List Char) : (String.mk l).data = l := rfl

lemma get_model_id_eq_map (t : String) :
    get_model_id t = String.mk (t.data.map modelIdChar) := by
  simp [get_model_id, replaceChar, List.map_map, modelIdChar]
  rfl

lemma sanitized_fixed (c : Char) (h : c.isAlphanum = true ∨ c = '-') :
    sanitizeChar (replace1 '.' '-' (replace1 ':' '-' c)) = c := by
  rcases h with h | rfl
  · have h1 : c ≠ ':' := by intro e; subst e; exact absurd h (by decide)
    have h2 : c ≠ '.' := by intro e; subst e; exact absurd h (by decide)
    simp [replace1, h1, h2, sanitizeChar, h]
  · decide

lemma model_id_chars (s : String) :
    ∀ c ∈ (get_model_id s).data, c.isAlphanum = true ∨ c = '-' := by
  intro c hc
  rw [get_model_id_eq_map] at hc
  obtain ⟨a, _, rfl⟩ := List.mem_map.1 hc
  exact sanitizeChar_alnum_or_hyphen _

lemma model_id_no_colon (s : String) : ':' ∉ (get_model_id s).data := by
  intro h
  rcases model_id_chars s _ h with h' | h' <;> exact absurd h' (by decide)

lemma model_id_no_dot (s : String) : '.' ∉ (get_model_id s).data := by
  intro h
  rcases model_id_chars s _ h with h' | h' <;> exact absurd h' (by decide)

/-! ## C1 -/

/-- Claim C1: `get_model_id` replaces every non-alphanumeric character with a
hyphen, so the resulting token consists only of alphanumeric characters and
hyphens; in particular no `:` or `.` from the input survives in the token. -/
theorem get_model_id_only_alnum_hyphen (s : String) :
    (∀ c ∈ (get_model_id s).data, c.isAlphanum = true ∨ c = '-') ∧
    ':' ∉ (get_model_id s).data ∧ '.' ∉ (get_model_id s).data :=
  ⟨model_id_chars s, model_id_no_colon s, model_id_no_dot s⟩

/-- Witness for C1 at the concrete identifier `"gemma:2b"` and character `g`. -/
theorem get_model_id_only_alnum_hyphen_w :
    ('g'.isAlphanum = true ∨ 'g' = '-') :=
  (get_model_id_only_alnum_hyphen "gemma:2b").1 'g' (by decide)

/-! ## C2 -/

/-- Claim C2: the sanitizer is deterministic (it is a pure function: equal
identifiers yield equal tokens) and idempotent: sanitizing an
already-sanitized token yields the same token. -/
theorem get_model_id_det_idem :
    (∀ s t : String, s = t → get_model_id s = get_model_id t) ∧
    (∀ s : String, get_model_id (get_model_id s) = get_model_id s) := by
  constructor
  · intro s t h; rw [h]
  · intro s
    rw [get_model_id_eq_map s,
      get_model_id_eq_map (String.mk (s.data.map modelIdChar)), data_mk, List.map_map]
    refine congrArg String.mk ?_
    apply List.map_congr_left
    intro a _
    simp only [Function.comp]
    exact sanitized_fixed (modelIdChar a) (sanitizeChar_alnum_or_hyphen _)

/-- Witness for C2 at the concrete identifier `"gemma:2b"`. -/
theorem get_model_id_det_idem_w :
    get_model_id "gemma:2b" = get_model_id "gemma:2b" ∧
    get_model_id (get_model_id "gemma:2b") = get_model_id "gemma:2b" :=
  ⟨get_model_id_det_idem.1 "gemma:2b" "gemma:2b" rfl,
   get_model_id_det_idem.2 "gemma:2b"⟩

/-! ## C3 -/

/-- Claim C3: the identifiers `"gemma:2b"` and `"llama3.1"` sanitize to
`"gemma-2b"` and `"llama3-1"`, and generation produces artifacts named
`Dockerfile-gemma-2b`, `gemma-2b-cloudbuild.yaml` (and likewise for
`llama3-1`), in the build directory. -/
theorem example_tokens_and_artifact_names :
    get_model_id "gemma:2b" = "gemma-2b" ∧ get_model_id "llama3.1" = "llama3-1" ∧
    (generate_files ["gemma:2b", "llama3.1"] "./build" true).map FileWrite.path =
      ["./build/Dockerfile-gemma-2b", "./build/gemma-2b-cloudbuild.yaml",
       "./build/build-gemma-2b.sh",
       "./build/Dockerfile-llama3-1", "./build/llama3-1-cloudbuild.yaml",
       "./build/build-llama3-1.sh",
       "./build/build-all.sh"] := by decide

/-! ## C4 -/

lemma modelWrites_paths_true (b m : String) :
    (modelWrites b true m).map FileWrite.path
      = [joinPath b ("Dockerfile-" ++ get_model_id m),
         joinPath b (get_model_id m ++ "-cloudbuild.yaml"),
         joinPath b ("build-" ++ get_model_id m ++ ".sh")] := rfl

lemma isEmpty_false_of_ne_nil {α : Type} {l : List α} (h : l ≠ []) : l.isEmpty = false := by
  cases l with
  | nil => exact absurd rfl h
  | cons a t => rfl

/-- Claim C4: for every model with sanitized token `t`, the generated files are
named exactly `Dockerfile-<t>`, `<t>-cloudbuild.yaml` and `build-<t>.sh`, and
the umbrella script is named exactly `build-all.sh`, all placed directly in
the build directory (the paths are the plain joins of the build directory
with those names, in generation order). -/
theorem generated_artifact_names (models : List String) (build_dir : String) (h : models ≠ []) :
    (generate_files models build_dir true).map FileWrite.path
      = models.flatMap (fun m =>
          [joinPath build_dir ("Dockerfile-" ++ get_model_id m),
           joinPath build_dir (get_model_id m ++ "-cloudbuild.yaml"),
           joinPath build_dir ("build-" ++ get_model_id m ++ ".sh")])
        ++ [joinPath build_dir "build-all.sh"] := by
  unfold generate_files
  rw [List.map_append, List.map_flatMap]
  simp only [isEmpty_false_of_ne_nil h, Bool.not_false, Bool.and_self, if_true,
    modelWrites_paths_true, List.map_cons, List.map_nil]

/-- Witness for C4 at the concrete model list `["gemma:2b"]`. -/
theorem generated_artifact_names_w :
    (generate_files ["gemma:2b"] "./build" true).map FileWrite.path
      = ["gemma:2b"].flatMap (fun m =>
          [joinPath "./build" ("Dockerfile-" ++ get_model_id m),
           joinPath "./build" (get_model_id m ++ "-cloudbuild.yaml"),
           joinPath "./build" ("build-" ++ get_model_id m ++ ".sh")])
        ++ [joinPath "./build" "build-all.sh"] :=
  generated_artifact_names ["gemma:2b"] "./build" (by decide)

/-! ## C5 -/

/-- Claim C5: the sanitizer is not injective — the distinct identifiers
`"gemma:2b"` and `"gemma.2b"` sanitize to the same token, their per-model
artifact paths coincide, and in a run containing both the final content at
the shared Dockerfile path is the later model's rendering, which differs from
the earlier model's (the later model's artifacts overwrite the earlier
ones). -/
theorem token_collision_overwrites :
    ("gemma:2b" : String) ≠ "gemma.2b" ∧
    get_model_id "gemma:2b" = get_model_id "gemma.2b" ∧
    (modelWrites "./build" true "gemma:2b").map FileWrite.path
      = (modelWrites "./build" true "gemma.2b").map FileWrite.path ∧
    finalContent (generate_files ["gemma:2b", "gemma.2b"] "./build" true)
        "./build/Dockerfile-gemma-2b"
      = some (dockerfile_render "gemma.2b") ∧
    dockerfile_render "gemma.2b" ≠ dockerfile_render "gemma:2b" := by decide

/-! ## C6 -/

/-- Claim C6: `submit_builds` attempts the external build command for every
model in list order whatever the per-invocation outcomes are (a failing
invocation never aborts the iteration: the attempted models are always
exactly the input list), each model contributes exactly its invocation and
one success/failure report, and every logged failure carries the name of a
model of the list. -/
theorem submit_builds_continues (fails : Nat → Bool) (build_dir : String)
    (models : List String) (i : Nat) :
    (submit_builds fails build_dir models i).filterMap attemptedModel = models ∧
    (submit_builds fails build_dir models i).length = 2 * models.length ∧
    ∀ m, SubmitEvent.errorLogged m ∈ submit_builds fails build_dir models i → m ∈ models := by
  induction models generalizing i with
  | nil => exact ⟨rfl, rfl, fun m hm => absurd hm (List.not_mem_nil _)⟩
  | cons model rest ih =>
    obtain ⟨ih1, ih2, ih3⟩ := ih (i + 1)
    refine ⟨?_, ?_, ?_⟩
    · cases hf : fails i <;>
        simp [submit_builds, hf, attemptedModel, List.filterMap_cons, ih1]
    · cases hf : fails i <;>
        · simp only [submit_builds, hf, List.length_cons, ih2, Bool.false_eq_true,
            if_false, if_true]
          omega
    · intro m hm
      cases hf : fails i
      · simp only [submit_builds, hf, Bool.false_eq_true, if_false, List.mem_cons] at hm
        rcases hm with h | h | hm
        · exact absurd h (by simp)
        · exact absurd h (by simp)
        · exact List.mem_cons_of_mem _ (ih3 m hm)
      · simp only [submit_builds, hf, if_true, List.mem_cons] at hm
        rcases hm with h | h | hm
        · exact absurd h (by simp)
        · injection h with h1
          subst h1
          exact List.mem_cons_self _ _
        · exact List.mem_cons_of_mem _ (ih3 m hm)

/-- Witness for C6: with every invocation failing, the failure logged for
`"m1"` names a model of the list. -/
theorem submit_builds_continues_w :
    ("m1" : String) ∈ ["m1", "m2"] :=
  (submit_builds_continues (fun _ => true) "./build" ["m1", "m2"] 0).2.2 "m1" (by decide)

/-! ## C8 -/

lemma runOps_eq (ok : FsOp → Bool) (l : List FsOp) :
    runOps ok l = (l.takeWhile ok, (l.dropWhile ok).head?) := by
  induction l with
  | nil => rfl
  | cons op rest ih =>
    cases h : ok op <;> simp [runOps, h, List.takeWhile_cons, List.dropWhile_cons, ih]

/-- Claim C8: filesystem errors in `generate_files` are caught nowhere: the
operations performed are exactly those preceding the first failing operation
(nothing after it is processed and nothing is cleaned up), the first failing
operation is raised, and when it is raised `main` performs no submission and
propagates exactly that error as its outcome. -/
theorem fs_error_propagation (ok : FsOp → Bool) (fails : Nat → Bool)
    (models_str build_dir : String) (submit no_build_scripts : Bool) :
    runOps ok (generate_files_ops (parse_models models_str) build_dir (!no_build_scripts))
        = ((generate_files_ops (parse_models models_str) build_dir (!no_build_scripts)).takeWhile ok,
           ((generate_files_ops (parse_models models_str) build_dir (!no_build_scripts)).dropWhile ok).head?) ∧
    ∀ e, ((generate_files_ops (parse_models models_str) build_dir (!no_build_scripts)).dropWhile ok).head? = some e →
      main_run ok fails models_str build_dir submit no_build_scripts
        = (((generate_files_ops (parse_models models_str) build_dir (!no_build_scripts)).takeWhile ok, []), some e) := by
  refine ⟨runOps_eq ok _, fun e he => ?_⟩
  unfold main_run
  simp only [runOps_eq, he]

/-- Witness for C8: when even directory creation fails, nothing is performed,
no submission happens, and the error is the overall outcome. -/
theorem fs_error_propagation_w :
    main_run (fun _ => false) (fun _ => true) "a" "./build" true false
      = (((generate_files_ops (parse_models "a") "./build" (!false)).takeWhile (fun _ => false), []),
         some (FsOp.mkdir "./build")) :=
  (fs_error_propagation (fun _ => false) (fun _ => true) "a" "./build" true false).2
    (FsOp.mkdir "./build") (by decide)

/-! ## C9 -/

/-- Claim C9: with script generation enabled and a nonempty model list, after
all per-model writes a single umbrella script `build-all.sh` is written,
marked executable, whose body is the fixed header followed by one line per
per-model build script, in input model order. -/
theorem build_all_master_script (models : List String) (build_dir : String) (h : models ≠ []) :
    generate_files models build_dir true
      = models.flatMap (modelWrites build_dir true)
        ++ [⟨joinPath build_dir "build-all.sh",
             "#!/bin/bash\nset -e\n\n"
               ++ String.join (models.map fun m =>
                    joinPath build_dir ("build-" ++ get_model_id m ++ ".sh") ++ "\n"),
             true⟩] := by
  unfold generate_files
  simp only [isEmpty_false_of_ne_nil h, Bool.not_false, Bool.and_self, if_true]
  congr 2
  rw [build_all_content, build_script_paths, List.map_map]
  rfl

/-- Witness for C9 at the concrete model list `["gemma:2b"]`. -/
theorem build_all_master_script_w :
    generate_files ["gemma:2b"] "./build" true
      = ["gemma:2b"].flatMap (modelWrites "./build" true)
        ++ [⟨joinPath "./build" "build-all.sh",
             "#!/bin/bash\nset -e\n\n"
               ++ String.join (["gemma:2b"].map fun m =>
                    joinPath "./build" ("build-" ++ get_model_id m ++ ".sh") ++ "\n"),
             true⟩] :=
  build_all_master_script ["gemma:2b"] "./build" (by decide)

/-! ## C7 -/

lemma data_append (a b : String) : (a ++ b).data = a.data ++ b.data := rfl

lemma endsWithStr_true_iff (s suff : String) :
    endsWithStr s suff = true ↔ suff.data <:+ s.data := by
  simp [endsWithStr]

lemma name_suffix_joinPath (dir name : String) :
    name.data <:+ (joinPath dir name).data := by
  unfold joinPath
  split
  · exact List.suffix_rfl
  · split
    · rw [data_append]; exact List.suffix_append _ _
    · rw [data_append]; exact List.suffix_append _ _

lemma sh_suffix_name (dir name : String) (h3 : 3 ≤ name.data.length)
    (hs : (".sh" : String).data <:+ (joinPath dir name).data) :
    (".sh" : String).data <:+ name.data :=
  List.suffix_of_suffix_length_le hs (name_suffix_joinPath dir name)
    (by have h : (".sh" : String).data.length = 3 := rfl; omega)

lemma endsWith_sh_script (dir t : String) :
    endsWithStr (joinPath dir ("build-" ++ t ++ ".sh")) ".sh" = true := by
  rw [endsWithStr_true_iff]
  refine List.IsSuffix.trans ?_ (name_suffix_joinPath _ _)
  rw [data_append]
  exact List.suffix_append _ _

lemma endsWith_sh_all (dir : String) :
    endsWithStr (joinPath dir "build-all.sh") ".sh" = true := by
  rw [endsWithStr_true_iff]
  exact List.IsSuffix.trans (by decide) (name_suffix_joinPath _ _)

lemma not_endsWith_sh_dockerfile (dir m : String) :
    endsWithStr (joinPath dir ("Dockerfile-" ++ get_model_id m)) ".sh" = false := by
  rw [Bool.eq_false_iff]
  intro h
  rw [endsWithStr_true_iff] at h
  have h2 : (".sh" : String).data <:+ ("Dockerfile-" ++ get_model_id m).data :=
    sh_suffix_name _ _
      (by
        rw [data_append, List.length_append]
        have h11 : ("Dockerfile-" : String).data.length = 11 := rfl
        omega) h
  have hdot : '.' ∈ ("Dockerfile-" ++ get_model_id m).data :=
    List.IsSuffix.mem (by decide) h2
  rw [data_append] at hdot
  rcases List.mem_append.1 hdot with h' | h'
  · exact absurd h' (by decide)
  · exact model_id_no_dot m h'

lemma not_endsWith_sh_yaml (dir m : String) :
    endsWithStr (joinPath dir (get_model_id m ++ "-cloudbuild.yaml")) ".sh" = false := by
  rw [Bool.eq_false_iff]
  intro h
  rw [endsWithStr_true_iff] at h
  have h2 : (".sh" : String).data <:+ (get_model_id m ++ "-cloudbuild.yaml").data :=
    sh_suffix_name _ _
      (by
        rw [data_append, List.length_append]
        have h16 : ("-cloudbuild.yaml" : String).data.length = 16 := rfl
        omega) h
  have h3 : ("-cloudbuild.yaml" : String).data <:+ (get_model_id m ++ "-cloudbuild.yaml").data := by
    rw [data_append]; exact List.suffix_append _ _
  have h4 : (".sh" : String).data <:+ ("-cloudbuild.yaml" : String).data :=
    List.suffix_of_suffix_length_le h2 h3 (by decide)
  exact absurd h4 (by decide)

lemma modelWrites_filter_sh (b m : String) :
    (modelWrites b true m).filter (fun w => !(endsWithStr w.path ".sh"))
      = modelWrites b false m := by
  simp only [modelWrites, if_true, if_false, List.filter_cons, List.filter_nil,
    not_endsWith_sh_dockerfile, not_endsWith_sh_yaml, endsWith_sh_script,
    Bool.not_false, Bool.not_true, List.append_nil]

/-- Claim C7: with shell-script generation suppressed no written file has a
path ending in `.sh` (no per-model script and no umbrella script), and the
writes performed are exactly the non-`.sh` writes of the enabled run — the
Dockerfile and cloudbuild.yaml artifacts keep the same names, contents and
order. -/
theorem no_build_scripts_frame (models : List String) (build_dir : String) :
    (∀ w ∈ generate_files models build_dir false, endsWithStr w.path ".sh" = false) ∧
    generate_files models build_dir false
      = (generate_files models build_dir true).filter (fun w => !(endsWithStr w.path ".sh")) := by
  constructor
  · intro w hw
    unfold generate_files at hw
    simp only [Bool.false_and, Bool.false_eq_true, if_false, List.append_nil] at hw
    obtain ⟨m, hm, hwm⟩ := List.mem_flatMap.1 hw
    simp only [modelWrites, Bool.false_eq_true, if_false, List.mem_cons] at hwm
    rcases hwm with rfl | rfl | hwm
    · exact not_endsWith_sh_dockerfile _ _
    · exact not_endsWith_sh_yaml _ _
    · exact absurd hwm (List.not_mem_nil _)
  · unfold generate_files
    rw [List.filter_append, List.filter_flatMap]
    simp only [Bool.false_and, Bool.false_eq_true, if_false, List.append_nil,
      modelWrites_filter_sh]
    cases hE : models.isEmpty
    · simp [endsWith_sh_all]
    · simp

/-- Witness for C7: the Dockerfile written for model `"a"` in a suppressed run
is not a shell script. -/
theorem no_build_scripts_frame_w :
    endsWithStr (FileWrite.mk "./build/Dockerfile-a" (dockerfile_render "a") false).path ".sh" = false :=
  (no_build_scripts_frame ["a"] "./build").1
    (FileWrite.mk "./build/Dockerfile-a" (dockerfile_render "a") false) (by decide)

/-! ## C10 -/

lemma dropLeadingWs_suffix (l : List Char) : dropLeadingWs l <:+ l := by
  induction l with
  | nil => exact List.suffix_rfl
  | cons c rest ih =>
    by_cases h : c.isWhitespace
    · simp only [dropLeadingWs, h, if_true]
      exact ih.trans (List.suffix_cons c rest)
    · simp only [dropLeadingWs, h, if_false]
      exact List.suffix_rfl

lemma dropLeadingWs_head (l : List Char) (c : Char)
    (h : (dropLeadingWs l).head? = some c) : c.isWhitespace = false := by
  induction l with
  | nil => exact absurd h (by simp [dropLeadingWs])
  | cons a rest ih =>
    cases ha : a.isWhitespace
    · simp only [dropLeadingWs, ha, Bool.false_eq_true, if_false, List.head?_cons,
        Option.some.injEq] at h
      subst h
      exact ha
    · simp only [dropLeadingWs, ha, if_true] at h
      exact ih h

lemma getLast?_of_suffix {α : Type} {l₁ l₂ : List α} (h : l₁ <:+ l₂) (hne : l₁ ≠ []) :
    l₂.getLast? = l₁.getLast? := by
  obtain ⟨t, rfl⟩ := h
  rw [List.getLast?_append]
  cases hl : l₁.getLast?
  · exact absurd (List.getLast?_eq_none_iff.1 hl) hne
  · rfl

lemma py_strip_no_edge_ws (s : String) :
    (∀ c, (py_strip s).data.head? = some c → c.isWhitespace = false) ∧
    (∀ c, (py_strip s).data.getLast? = some c → c.isWhitespace = false) := by
  constructor
  · intro c hc
    rw [py_strip, data_mk, List.head?_reverse] at hc
    have hne : dropLeadingWs (dropLeadingWs s.data).reverse ≠ [] := by
      intro he
      rw [he] at hc
      exact absurd hc (by simp)
    have heq := getLast?_of_suffix (dropLeadingWs_suffix (dropLeadingWs s.data).reverse) hne
    rw [← heq, List.getLast?_reverse] at hc
    exact dropLeadingWs_head _ _ hc
  · intro c hc
    rw [py_strip, data_mk, List.getLast?_reverse] at hc
    exact dropLeadingWs_head _ _ hc

set_option maxRecDepth 4000 in
/-- Claim C10: `main` strips each comma-separated identifier of leading and
trailing whitespace before any further processing: `"a, b"` and `"a,b"` parse
to the same model list `["a", "b"]` and produce the same artifacts, and no
parsed identifier starts or ends with a whitespace character. -/
theorem parse_models_strips (s : String) :
    parse_models "a, b" = ["a", "b"] ∧ parse_models "a,b" = ["a", "b"] ∧
    main_generate "a, b" "./build" false = main_generate "a,b" "./build" false ∧
    ∀ m ∈ parse_models s,
      (∀ c, m.data.head? = some c → c.isWhitespace = false) ∧
      (∀ c, m.data.getLast? = some c → c.isWhitespace = false) := by
  refine ⟨by decide, by decide, by decide, fun m hm => ?_⟩
  obtain ⟨l, _, rfl⟩ := List.mem_map.1 hm
  exact py_strip_no_edge_ws (String.mk l)

/-- Witness for C10 at the parsed identifier `"a"` of `"a, b"`. -/
theorem parse_models_strips_w :
    'a'.isWhitespace = false :=
  ((parse_models_strips "a, b").2.2.2 "a" (by decide)).1 'a' (by decide)

end ImageBuilder
